import Mathlib

/-!
Shallow embedding of the hub command-dispatch and execution engine of the
SP-Crew hub repository (hub/hub.py, portable-hub/portable_hub_silent.py,
v2/hub/hub.py), together with proofs settling the frozen claims about it.

The Python sources are translated definition by definition:
pure computations become Lean functions, the real-time handler and the
reconnection supervisor become explicit state-passing step functions, and
exception-raising database calls become functions parameterised by an
oracle saying which call raises.
-/

namespace SPHub

/-- Substring test on character lists: `subListOf n h` is true iff `n`
occurs as a contiguous sublist of `h` (the embedding of Python `n in h`). -/
def subListOf (n : List Char) : List Char → Bool
  | [] => n.isEmpty
  | c :: t => n.isPrefixOf (c :: t) || subListOf n t

/-- Embedding of Python `needle in haystack` on strings. -/
def strContains (haystack needle : String) : Bool :=
  subListOf needle.data haystack.data

/-- ASCII lowercasing of one character (what Python `str.lower()` does on
the ASCII range; the heuristic needles are all ASCII). -/
def lowerChar (c : Char) : Char :=
  if c.isUpper then Char.ofNat (c.toNat + 32) else c

/-- Embedding of Python `s.lower()` (ASCII range). -/
def lowerStr (s : String) : String :=
  String.mk (s.data.map lowerChar)

/-- Embedding of Python `needle in haystack.lower()` with an
already-lowercase needle, as used by the success heuristics. -/
def strContainsLower (haystack needle : String) : Bool :=
  strContains (lowerStr haystack) needle

/-- A completed (non-timeout, non-exception) child process: the data the
executor reads back from `proc` after `communicate()` returns. -/
structure Completed where
  returncode : Int
  stdout : String
  stderr : String
  deriving DecidableEq

/-- `success_indicators` list from `execute_script_async_direct`
(portable_hub_silent.py:1060-1065, hub.py:586-591, v2/hub.py:441-446). -/
def success_indicators (p : Completed) : List Bool :=
  [ p.returncode == 0
  , strContainsLower p.stdout "success"
  , strContainsLower p.stdout "completed"
  , strContainsLower p.stdout "done" ]

/-- `error_indicators` list from the same function
(portable_hub_silent.py:1067-1071). -/
def error_indicators (p : Completed) : List Bool :=
  [ strContainsLower p.stderr "error"
  , strContainsLower p.stderr "failed"
  , strContainsLower p.stderr "exception" ]

/-- `is_success = (proc.returncode == 0 or any(success_indicators)) and
not any(error_indicators)` (portable_hub_silent.py:1073). -/
def is_success (p : Completed) : Bool :=
  (p.returncode == 0 || (success_indicators p).any id)
    && !((error_indicators p).any id)

/-- Modelled from the spec (spec section 4.2): the spec's stated success
classification, written from its words for comparison with `is_success`:
success iff (exit code 0 OR stdout contains one of "success"/"completed"/
"done" case-insensitively) AND stderr contains none of "error"/"failed"/
"exception" case-insensitively. -/
def specSuccess (p : Completed) : Bool :=
  (p.returncode == 0
      || strContainsLower p.stdout "success"
      || strContainsLower p.stdout "completed"
      || strContainsLower p.stdout "done")
    && !(strContainsLower p.stderr "error"
      || strContainsLower p.stderr "failed"
      || strContainsLower p.stderr "exception")

/-! ## Process Executor results

`execute_script_async_direct` returns a Python dict; reads of absent keys
downstream use `result.get(key, default)`, so the dict is embedded as a
structure whose absent keys hold the defaults the callers read. -/

/-- The execution-result dict returned by `execute_script_async_direct`
(fields the dispatch sub-flow reads: `success`, `output`, `error`,
`duration_ms`). A key absent from the dict is held at the caller's
`.get` default (`False`, `""`, `0`). -/
structure ExecResult where
  success : Bool
  output : String
  error : String
  duration_ms : Nat
  deriving DecidableEq

/-- The result dict built in the completed (non-timeout, non-exception)
branch of `execute_script_async_direct`
(portable_hub_silent.py:1075-1087, hub.py:601-613): `success` from the
heuristic, `output = stdout if proc.returncode == 0 else stderr`, and the
`error` key set to `stderr` only when the return code is nonzero. -/
def completedResult (p : Completed) (duration_ms : Nat) : ExecResult :=
  { success := is_success p
  , output := if p.returncode == 0 then p.stdout else p.stderr
  , error := if p.returncode == 0 then "" else p.stderr
  , duration_ms := duration_ms }

/-- The expected timeout message of spec section 4.2 for an enforced
limit of `n` seconds: `"Script execution timed out (<N>s limit)"`. -/
def timeoutMessage (n : Nat) : String :=
  "Script execution timed out (" ++ toString n ++ "s limit)"

/-- The `asyncio.wait_for` limit in portable_hub_silent.py:1051:
`timeout=30.0` seconds. -/
def portableEnforcedTimeoutSeconds : Nat := 30

/-- The dict returned by the `asyncio.TimeoutError` branch of
portable_hub_silent.py:1091-1103 (its error string hardcodes `15s`). -/
def portableTimeoutResult (elapsed_ms : Nat) : ExecResult :=
  { success := false
  , output := ""
  , error := "Script execution timed out (15s limit)"
  , duration_ms := elapsed_ms }

/-- The `asyncio.wait_for` limit in hub.py:579: `timeout=15.0` seconds. -/
def hubEnforcedTimeoutSeconds : Nat := 15

/-- The dict returned by the `asyncio.TimeoutError` branch of
hub.py:617-629. -/
def hubTimeoutResult (elapsed_ms : Nat) : ExecResult :=
  { success := false
  , output := ""
  , error := "Script execution timed out (15s limit)"
  , duration_ms := elapsed_ms }

/-- The `subprocess.run` limit in v2/hub/hub.py: `timeout=30` seconds. -/
def v2EnforcedTimeoutSeconds : Nat := 30

/-- The dict returned by the `subprocess.TimeoutExpired` branch of
v2/hub/hub.py:474-481. -/
def v2TimeoutResult (elapsed_ms : Nat) : ExecResult :=
  { success := false
  , output := ""
  , error := "Script execution timed out (30s limit)"
  , duration_ms := elapsed_ms }

/-- How `execute_script_async_direct` starts: either it returns early
(before any `create_subprocess_exec`) or it goes on to spawn the child. -/
inductive DirectStart
  | earlyReturn (r : ExecResult)
  | spawn
  deriving DecidableEq

/-- The guard prefix of `execute_script_async_direct`
(portable_hub_silent.py:988-995, hub.py:527-533): if `script_name` is not
in `self.available_scripts`, return the "Script not found" failure dict
immediately; otherwise proceed towards spawning the child process. -/
def directStart (available_scripts : List String) (script_name : String) :
    DirectStart :=
  if !available_scripts.contains script_name then
    .earlyReturn
      { success := false
      , output := ""
      , error := "Script not found: " ++ script_name
      , duration_ms := 0 }
  else
    .spawn

/-! ## The dispatch sub-flow and its database writes -/

/-- The `script_results` row inserted by `execute_script_async`
(portable_hub_silent.py:1138-1146, hub.py:665-672). -/
structure ScriptResultRow where
  command_id : String
  exit_code : Int
  stdout : String
  stderr : String
  success : Bool
  deriving DecidableEq

/-- One attempted database operation of the dispatch sub-flow. -/
inductive DBOp
  | updateStatus (command_id status : String)
  | insertResult (row : ScriptResultRow)
  deriving DecidableEq

/-- Row construction from `execute_script_async`: note
`exit_code = 0 if result.get('success') else 1`, not the child's code. -/
def buildResultRow (command_id : String) (result : ExecResult) :
    ScriptResultRow :=
  { command_id := command_id
  , exit_code := if result.success then 0 else 1
  , stdout := result.output
  , stderr := result.error
  , success := result.success }

/-- Which steps of one `execute_script_async` run raise an exception, and
what the executed script returns when it completes. Each database call
and the script execution may raise; the raise is observed after the
operation was attempted. -/
structure DispatchRun where
  updExecutingRaises : Bool
  execRaises : Bool
  execResult : ExecResult
  insertRaises : Bool
  updFinalRaises : Bool

/-- The trace of database operations attempted by one run of
`execute_script_async` (portable_hub_silent.py:1114-1164,
hub.py:640-690): update status to `executing`; run the script; insert the
`script_results` row; update status to `completed`/`failed`. The
enclosing `except` block attempts a final best-effort update of the
status to `failed` (portable_hub_silent.py:1156-1164, hub.py:682-690). -/
def execute_script_async (o : DispatchRun) (command_id : String) :
    List DBOp :=
  let fallback := [DBOp.updateStatus command_id "failed"]
  let t1 := [DBOp.updateStatus command_id "executing"]
  if o.updExecutingRaises then t1 ++ fallback
  else if o.execRaises then t1 ++ fallback
  else
    let final_status := if o.execResult.success then "completed" else "failed"
    let t2 := t1 ++ [DBOp.insertResult (buildResultRow command_id o.execResult)]
    if o.insertRaises then t2 ++ fallback
    else
      let t3 := t2 ++ [DBOp.updateStatus command_id final_status]
      if o.updFinalRaises then t3 ++ fallback
      else t3

/-- True iff some step of the dispatch sub-flow raised. -/
def dispatchRaised (o : DispatchRun) : Bool :=
  o.updExecutingRaises || o.execRaises || o.insertRaises || o.updFinalRaises

/-- The trace of database operations attempted by the synchronous
dispatch sub-flow of v2/hub/hub.py:504-569: an inner `try` updates the
status to `executing` and runs the script (on a raise, `result` becomes
the "Database error" failure dict with text `excText` and `final_status`
becomes `failed`); the recording block then always attempts the
`script_results` insert and the final status update, and its `except`
arm attempts the best-effort update to `failed`
(v2/hub/hub.py:561-569). -/
def v2_handle_dispatch (o : DispatchRun) (excText : String)
    (command_id : String) : List DBOp :=
  let t1 := [DBOp.updateStatus command_id "executing"]
  let inner :=
    if o.updExecutingRaises || o.execRaises then
      (({ success := false
        , output := ""
        , error := "Database error: " ++ excText
        , duration_ms := 0 } : ExecResult), "failed")
    else
      (o.execResult, if o.execResult.success then "completed" else "failed")
  let t2 := t1 ++ [DBOp.insertResult (buildResultRow command_id inner.1)]
  if o.insertRaises then t2 ++ [DBOp.updateStatus command_id "failed"]
  else
    let t3 := t2 ++ [DBOp.updateStatus command_id inner.2]
    if o.updFinalRaises then t3 ++ [DBOp.updateStatus command_id "failed"]
    else t3

/-! ## The real-time command handler -/

/-- The fields `handle_execute_message` extracts from
`payload['data']['record']`; a missing key reads as `none`
(`status` reads with default `'pending'`). -/
structure CommandEvent where
  script_name : Option String
  user_id : Option String
  id : Option String
  status : Option String
  deriving DecidableEq

/-- Python `data.get('status', 'pending')`. -/
def eventStatus (e : CommandEvent) : String :=
  e.status.getD "pending"

/-- Python truthiness test `not script_name` / `not command_id`: true for
a missing key and for the empty string. -/
def falsyStr : Option String → Bool
  | none => true
  | some s => s.isEmpty

/-- The rejection guard of `handle_execute_message`
(portable_hub_silent.py:1192-1194, hub.py:718-720, v2/hub/hub.py:504-506):
`if not script_name or not command_id or status != 'pending': return`. -/
def rejectEvent (e : CommandEvent) : Bool :=
  falsyStr e.script_name || falsyStr e.id || eventStatus e != "pending"

/-- In-memory handler state: the `processed_commands` set
(portable_hub_silent.py:92) and the ids of the executions dispatched so
far (`asyncio.create_task(self.execute_script_async(...))` calls). -/
structure HandlerState where
  processed_commands : List String
  dispatched : List String
  deriving DecidableEq

/-- Initial handler state of a fresh hub process. -/
def initialHandlerState : HandlerState :=
  { processed_commands := [], dispatched := [] }

/-- `handle_execute_message` of portable_hub_silent.py:1166-1209: reject
on missing data or wrong status; skip ids already in
`processed_commands`; otherwise add the id to `processed_commands` and
spawn the execution task. -/
def portableHandle (s : HandlerState) (e : CommandEvent) : HandlerState :=
  if rejectEvent e then s
  else
    let command_id := (e.id).getD ""
    if s.processed_commands.contains command_id then s
    else
      { processed_commands := command_id :: s.processed_commands
      , dispatched := s.dispatched ++ [command_id] }

/-- `handle_execute_message` of hub.py:692-727: same rejection guard but
no `processed_commands` membership test — every accepted event spawns an
execution task. -/
def hubHandle (s : HandlerState) (e : CommandEvent) : HandlerState :=
  if rejectEvent e then s
  else
    let command_id := (e.id).getD ""
    { s with dispatched := s.dispatched ++ [command_id] }

/-- Deliver a sequence of events to a handler, threading the state. -/
def runEvents (handle : HandlerState → CommandEvent → HandlerState)
    (events : List CommandEvent) : HandlerState :=
  events.foldl handle initialHandlerState

/-- Number of executions of command id `x` dispatched in state `s`. -/
def execCount (s : HandlerState) (x : String) : Nat :=
  s.dispatched.count x

/-! ## The reconnection supervisor -/

/-- The hub state read and written by `reconnect_websocket`:
`self.running` (portable_hub_silent.py:88, hub.py:79),
`self.reconnect_attempts` (initially 0) and
`self.max_reconnect_attempts` (10). -/
structure ReconnState where
  running : Bool
  reconnect_attempts : Nat
  max_reconnect_attempts : Nat
  deriving DecidableEq

/-- What one invocation of `reconnect_websocket` does after updating the
state: nothing (already shut down), give up, or sleep `delay` seconds and
then retry the connection. -/
inductive ReconnAction
  | noAction
  | gaveUp
  | attemptAfter (delay : Nat)
  deriving DecidableEq

/-- `reconnect_websocket` (portable_hub_silent.py:1316-1333,
hub.py:834-851): return if not running; increment the attempt counter;
if it now exceeds `max_reconnect_attempts`, set `running = False` and
give up; otherwise sleep `min(2 ** attempts, 60)` seconds and retry. -/
def reconnect_websocket (s : ReconnState) : ReconnState × ReconnAction :=
  if !s.running then (s, .noAction)
  else
    let a := s.reconnect_attempts + 1
    if a > s.max_reconnect_attempts then
      ({ s with reconnect_attempts := a, running := false }, .gaveUp)
    else
      ({ s with reconnect_attempts := a }, .attemptAfter (min (2 ^ a) 60))

/-- The keep-alive loop of `run_async`
(portable_hub_silent.py:1418, hub.py:934): `while self.running:
await asyncio.sleep(1)` — the loop (and with it the process's main
coroutine) continues iff `running` is still true. The heartbeat thread
loops on the same flag. -/
def mainLoopContinues (s : ReconnState) : Bool :=
  s.running

/-! ## Script discovery -/

/-- One entry of `os.listdir(self.scripts_dir)`: its name, whether it is
a directory, and (for directories) the file names it contains. -/
structure DirEntry where
  name : String
  isDir : Bool
  files : List String
  deriving DecidableEq

/-- The entry-file test of `discover_scripts`
(portable_hub_silent.py:826, hub.py:374): the subdirectory contains
`<name>.py` or `<name>.ps1`. -/
def hasEntryFile (d : DirEntry) : Bool :=
  d.files.contains (d.name ++ ".py") || d.files.contains (d.name ++ ".ps1")

/-- What `discover_scripts` accumulates: the returned `scripts` list, the
`failed_deps` list and the `script_dependencies_ready` flags recorded by
`install_script_dependencies`. -/
structure DiscoveryResult where
  scripts : List String
  failed_deps : List String
  ready : List (String × Bool)
  deriving DecidableEq

/-- The discovery condition of the loop body
(portable_hub_silent.py:824-826, hub.py:372-374): the entry is a
directory and contains a matching entry file. -/
def discovered (d : DirEntry) : Bool :=
  d.isDir && hasEntryFile d

/-- One loop iteration of `discover_scripts`
(portable_hub_silent.py:822-838, hub.py:370-381), with the outcome of the
external `install_script_dependencies` call given by the oracle
`installOK`: a directory with a matching entry file is always appended to
`scripts`; an install failure only records the name in `failed_deps` and
a false readiness flag. -/
def discoverStep (installOK : String → Bool) (acc : DiscoveryResult)
    (item : DirEntry) : DiscoveryResult :=
  if discovered item then
    let deps_ready := installOK item.name
    { scripts := acc.scripts ++ [item.name]
    , failed_deps :=
        if deps_ready then acc.failed_deps else acc.failed_deps ++ [item.name]
    , ready := acc.ready ++ [(item.name, deps_ready)] }
  else acc

/-- `discover_scripts` (portable_hub_silent.py:810-848, hub.py:358-391)
over the directory listing `entries`. -/
def discover_scripts (entries : List DirEntry) (installOK : String → Bool) :
    DiscoveryResult :=
  entries.foldl (discoverStep installOK) ⟨[], [], []⟩

/-! ## Helper lemmas -/

theorem isPrefixOf_append_right (l m r : List Char)
    (h : l.isPrefixOf m = true) : l.isPrefixOf (m ++ r) = true := by
  induction l generalizing m with
  | nil => simp [List.isPrefixOf]
  | cons a as ih =>
    cases m with
    | nil => simp [List.isPrefixOf] at h
    | cons b bs =>
      simp only [List.cons_append, List.isPrefixOf, Bool.and_eq_true] at h ⊢
      exact ⟨h.1, ih bs h.2⟩

theorem subListOf_of_isPrefixOf (n h : List Char)
    (hp : n.isPrefixOf h = true) : subListOf n h = true := by
  cases h with
  | nil =>
    cases n with
    | nil => rfl
    | cons a as => simp [List.isPrefixOf] at hp
  | cons c t => simp [subListOf, hp]

/-- Pure boolean shape of the success classification. -/
theorem or_self_or_bool (a b c d x : Bool) :
    ((a || (a || (b || (c || d)))) && !x) = ((a || (b || (c || d))) && !x) := by
  cases a <;> rfl

/-! ## Claim theorems -/

/-- C2: for every completed (non-timeout, non-exception) child process,
the executor's classification `is_success` agrees exactly with the
spec's formula (`specSuccess`): success iff (exit code 0 or stdout
contains "success"/"completed"/"done" case-insensitively) and stderr
contains none of "error"/"failed"/"exception" case-insensitively; in
particular exit 0 with empty outputs is success, exit 1 with stdout
"done" is success, and exit 0 with stderr "Exception: x" is failure. -/
theorem c2_success_classification (p : Completed) :
    is_success p = specSuccess p
      ∧ is_success ⟨0, "", ""⟩ = true
      ∧ is_success ⟨1, "done", ""⟩ = true
      ∧ is_success ⟨0, "", "Exception: x"⟩ = false := by
  refine ⟨?_, by decide, by decide, by decide⟩
  unfold is_success specSuccess success_indicators error_indicators
  simp only [List.any_cons, List.any_nil, id, Bool.or_false, Bool.or_assoc]
  exact or_self_or_bool (p.returncode == 0) (strContainsLower p.stdout "success")
    (strContainsLower p.stdout "completed") (strContainsLower p.stdout "done")
    (strContainsLower p.stderr "error" || (strContainsLower p.stderr "failed"
      || strContainsLower p.stderr "exception"))

/-- C3: in portable_hub_silent.py the enforced `asyncio.wait_for` limit
is 30 seconds, yet the timeout branch returns the error string
"Script execution timed out (15s limit)" (and logs "timed out after 15
seconds"), so the reported N is not the enforced timeout; the sibling
implementations hub.py (15s) and v2/hub/hub.py (30s) do report their
enforced limits. -/
theorem c3_portable_timeout_message_mismatch (elapsed : Nat) :
    (portableTimeoutResult elapsed).error = timeoutMessage 15
      ∧ portableEnforcedTimeoutSeconds = 30
      ∧ (portableTimeoutResult elapsed).error
          ≠ timeoutMessage portableEnforcedTimeoutSeconds
      ∧ (portableTimeoutResult elapsed).success = false
      ∧ (portableTimeoutResult elapsed).duration_ms = elapsed
      ∧ (hubTimeoutResult elapsed).error
          = timeoutMessage hubEnforcedTimeoutSeconds
      ∧ (v2TimeoutResult elapsed).error
          = timeoutMessage v2EnforcedTimeoutSeconds := by
  refine ⟨rfl, rfl, ?_, rfl, rfl, rfl, rfl⟩
  change "Script execution timed out (15s limit)" ≠ timeoutMessage 30
  decide

/-- C9: the `exit_code` column of the inserted `script_results` row is
derived from the boolean success classification — 0 when success, 1
otherwise — not from the child's actual exit code; in particular a run
with exit code 1 and stdout "done" (heuristically successful) is
recorded with `exit_code = 0`. -/
theorem c9_exit_code_from_success (cid : String) (r : ExecResult) :
    (buildResultRow cid r).exit_code = (if r.success then 0 else 1)
      ∧ (⟨1, "done", ""⟩ : Completed).returncode ≠ 0
      ∧ (buildResultRow "c" (completedResult ⟨1, "done", ""⟩ 5)).exit_code
          = 0 := by
  refine ⟨rfl, by decide, by decide⟩

/-- C10: for every completed (non-timeout) execution the `output` field
is stdout when the exit code is 0 and stderr when it is nonzero; in
particular a heuristically-successful run with exit code 1 reports its
stderr, not its stdout, as output. -/
theorem c10_output_by_returncode (p : Completed) (d : Nat) :
    (completedResult p d).output
        = (if p.returncode == 0 then p.stdout else p.stderr)
      ∧ is_success ⟨1, "done", "x"⟩ = true
      ∧ (completedResult ⟨1, "done", "x"⟩ 7).output = "x" := by
  refine ⟨rfl, by decide, by decide⟩

/-- C6: a script id absent from the last discovery snapshot makes
`execute_script_async_direct` return immediately — before any
`create_subprocess_exec` — with a failure whose error contains
"Script not found" and whose `duration_ms` is 0. -/
theorem c6_script_not_found (available_scripts : List String)
    (script_name : String) (h : script_name ∉ available_scripts) :
    directStart available_scripts script_name =
      DirectStart.earlyReturn
        { success := false
        , output := ""
        , error := "Script not found: " ++ script_name
        , duration_ms := 0 }
      ∧ strContains ("Script not found: " ++ script_name)
          "Script not found" = true := by
  constructor
  · have hc : available_scripts.contains script_name = false := by
      simpa using h
    unfold directStart
    rw [hc]
    rfl
  · unfold strContains
    rw [String.data_append]
    apply subListOf_of_isPrefixOf
    apply isPrefixOf_append_right
    decide

/-- Witness for C6 at the concrete snapshot ["rotate", "cursor"] and the
unknown id "beep". -/
theorem c6_script_not_found_witness :
    "beep" ∉ (["rotate", "cursor"] : List String)
      ∧ (directStart ["rotate", "cursor"] "beep" =
          DirectStart.earlyReturn
            { success := false
            , output := ""
            , error := "Script not found: " ++ "beep"
            , duration_ms := 0 }
        ∧ strContains ("Script not found: " ++ "beep")
            "Script not found" = true) :=
  ⟨by decide, c6_script_not_found ["rotate", "cursor"] "beep" (by decide)⟩

/-- C7: an event with a missing (or empty) `script_name` or command id,
or a status other than "pending", is rejected by the handler guard: the
handler returns with the processed set and the dispatched executions
unchanged, in both the portable hub and hub.py handlers. -/
theorem c7_reject_leaves_state (s : HandlerState) (e : CommandEvent)
    (h : e.script_name = none ∨ e.id = none ∨ eventStatus e ≠ "pending") :
    portableHandle s e = s ∧ hubHandle s e = s := by
  have hr : rejectEvent e = true := by
    unfold rejectEvent
    rcases h with h | h | h
    · simp [h, falsyStr]
    · simp [h, falsyStr]
    · simp [h]
  constructor
  · simp [portableHandle, hr]
  · simp [hubHandle, hr]

/-- Witness for C7: an event carrying a script name and a pending status
but no command id leaves a nonempty handler state untouched. -/
theorem c7_reject_leaves_state_witness :
    ((⟨some "beep", some "u", none, some "pending"⟩ : CommandEvent).script_name
        = none
      ∨ (⟨some "beep", some "u", none, some "pending"⟩ : CommandEvent).id = none
      ∨ eventStatus ⟨some "beep", some "u", none, some "pending"⟩ ≠ "pending")
      ∧ (portableHandle ⟨["c0"], ["c0"]⟩
            ⟨some "beep", some "u", none, some "pending"⟩ = ⟨["c0"], ["c0"]⟩
        ∧ hubHandle ⟨["c0"], ["c0"]⟩
            ⟨some "beep", some "u", none, some "pending"⟩ = ⟨["c0"], ["c0"]⟩) :=
  ⟨Or.inr (Or.inl rfl),
    c7_reject_leaves_state ⟨["c0"], ["c0"]⟩
      ⟨some "beep", some "u", none, some "pending"⟩ (Or.inr (Or.inl rfl))⟩

/-- C5: whenever any step of the dispatch sub-flow raises (the status
update to executing, the script execution, the `script_results` insert,
or the final status update), the handler still attempts, as its last
database operation, the best-effort update of the command's status to
"failed" — both in the async `execute_script_async` sub-flow
(portable_hub_silent.py, hub.py) and in v2/hub/hub.py's synchronous
`handle_execute_message` sub-flow. -/
theorem c5_fallback_sets_failed (o : DispatchRun)
    (command_id excText : String) (h : dispatchRaised o = true) :
    (execute_script_async o command_id).getLast?
        = some (DBOp.updateStatus command_id "failed")
      ∧ (v2_handle_dispatch o excText command_id).getLast?
        = some (DBOp.updateStatus command_id "failed") := by
  obtain ⟨u, e, r, i, f⟩ := o
  unfold dispatchRaised at h
  cases u <;> cases e <;> cases i <;> cases f <;>
    simp_all [execute_script_async, v2_handle_dispatch]

/-- Witness for C5: a run whose very first database write raises still
ends with the best-effort "failed" update, in both sub-flows. -/
theorem c5_fallback_sets_failed_witness :
    dispatchRaised ⟨true, false, ⟨false, "", "", 0⟩, false, false⟩ = true
      ∧ ((execute_script_async
            ⟨true, false, ⟨false, "", "", 0⟩, false, false⟩ "cmd1").getLast?
          = some (DBOp.updateStatus "cmd1" "failed")
        ∧ (v2_handle_dispatch
            ⟨true, false, ⟨false, "", "", 0⟩, false, false⟩ "boom"
              "cmd1").getLast?
          = some (DBOp.updateStatus "cmd1" "failed")) :=
  ⟨rfl, c5_fallback_sets_failed ⟨true, false, ⟨false, "", "", 0⟩, false, false⟩
    "cmd1" "boom" rfl⟩

/-- C4 counterexample: at the concrete state with `running = True` and
`reconnect_attempts = 10` (the maximum), one more `reconnect_websocket`
call gives up and sets `running = False`; since the keep-alive loop of
`run_async` is `while self.running`, the embedded main loop stops — the
process does not stay in an inert running state as the claim asserts. -/
theorem c4_gives_up_and_stops_main_loop :
    (reconnect_websocket ⟨true, 10, 10⟩).2 = ReconnAction.gaveUp
      ∧ (reconnect_websocket ⟨true, 10, 10⟩).1.running = false
      ∧ mainLoopContinues (reconnect_websocket ⟨true, 10, 10⟩).1 = false := by
  decide

/-- C4 amended: the delay before attempt `k` is exactly
`min(2 ^ k, 60)` seconds (2, 4, 8, 16, 32 for attempts 1..5 and 60 — not
128 — for attempt 7), and once the counter would exceed the maximum of
10 the hub stops reconnecting and clears `running`; because the main
keep-alive loop runs `while self.running`, this also ends the embedded
main loop (the hub process shuts down, it does not idle inert). -/
theorem c4_backoff_and_give_up (s : ReconnState) (k : Nat)
    (hrun : s.running = true) (hmax : s.max_reconnect_attempts = 10)
    (hk : k = s.reconnect_attempts + 1) :
    (k ≤ 10 →
        (reconnect_websocket s).2 = ReconnAction.attemptAfter (min (2 ^ k) 60)
          ∧ (reconnect_websocket s).1.reconnect_attempts = k
          ∧ (reconnect_websocket s).1.running = true)
      ∧ (k > 10 →
          (reconnect_websocket s).2 = ReconnAction.gaveUp
            ∧ (reconnect_websocket s).1.running = false
            ∧ mainLoopContinues (reconnect_websocket s).1 = false)
      ∧ min (2 ^ 1) 60 = 2 ∧ min (2 ^ 2) 60 = 4 ∧ min (2 ^ 3) 60 = 8
      ∧ min (2 ^ 4) 60 = 16 ∧ min (2 ^ 5) 60 = 32
      ∧ min (2 ^ 7) 60 = 60 := by
  subst hk
  refine ⟨?_, ?_, rfl, rfl, rfl, rfl, rfl, rfl⟩
  · intro hle
    have hng : ¬ s.reconnect_attempts + 1 > s.max_reconnect_attempts := by
      omega
    simp [reconnect_websocket, hrun, hng]
  · intro hgt
    have hg : s.reconnect_attempts + 1 > s.max_reconnect_attempts := by
      omega
    simp [reconnect_websocket, hrun, hg, mainLoopContinues]

/-- Witness for C4 amended at the fresh reconnection state
(`running`, counter 0, maximum 10), attempt number 1. -/
theorem c4_backoff_and_give_up_witness :
    (⟨true, 0, 10⟩ : ReconnState).running = true
      ∧ (⟨true, 0, 10⟩ : ReconnState).max_reconnect_attempts = 10
      ∧ (1 : Nat) = (⟨true, 0, 10⟩ : ReconnState).reconnect_attempts + 1
      ∧ ((1 ≤ 10 →
            (reconnect_websocket ⟨true, 0, 10⟩).2
                = ReconnAction.attemptAfter (min (2 ^ 1) 60)
              ∧ (reconnect_websocket ⟨true, 0, 10⟩).1.reconnect_attempts = 1
              ∧ (reconnect_websocket ⟨true, 0, 10⟩).1.running = true)
          ∧ (1 > 10 →
              (reconnect_websocket ⟨true, 0, 10⟩).2 = ReconnAction.gaveUp
                ∧ (reconnect_websocket ⟨true, 0, 10⟩).1.running = false
                ∧ mainLoopContinues (reconnect_websocket ⟨true, 0, 10⟩).1
                    = false)
          ∧ min (2 ^ 1) 60 = 2 ∧ min (2 ^ 2) 60 = 4 ∧ min (2 ^ 3) 60 = 8
          ∧ min (2 ^ 4) 60 = 16 ∧ min (2 ^ 5) 60 = 32
          ∧ min (2 ^ 7) 60 = 60) :=
  ⟨rfl, rfl, rfl, c4_backoff_and_give_up ⟨true, 0, 10⟩ 1 rfl rfl rfl⟩

/-- C1 counterexample: hub.py's `handle_execute_message` has no
`processed_commands` set, so delivering the same pending command event
twice to one hub.py process dispatches two executions of command
"cmd1" — the claimed at-most-once bound fails on that handler. -/
theorem c1_hub_double_dispatch :
    execCount (runEvents hubHandle
        [ ⟨some "beep", some "u", some "cmd1", some "pending"⟩
        , ⟨some "beep", some "u", some "cmd1", some "pending"⟩ ]) "cmd1" = 2
      ∧ ¬ execCount (runEvents hubHandle
          [ ⟨some "beep", some "u", some "cmd1", some "pending"⟩
          , ⟨some "beep", some "u", some "cmd1", some "pending"⟩ ]) "cmd1"
            ≤ 1 := by
  decide

/-- One portable-hub handler step preserves the dedup invariant: the
number of dispatched executions of `x` is bounded by 1 if `x` is in
`processed_commands` and by 0 otherwise. -/
theorem portableHandle_count_le (s : HandlerState) (e : CommandEvent)
    (x : String)
    (h : s.dispatched.count x
      ≤ (if s.processed_commands.contains x then 1 else 0)) :
    (portableHandle s e).dispatched.count x
      ≤ (if (portableHandle s e).processed_commands.contains x then 1
          else 0) := by
  unfold portableHandle
  cases hre : rejectEvent e with
  | true => simpa using h
  | false =>
    simp only [Bool.false_eq_true, if_false]
    cases hc : s.processed_commands.contains ((e.id).getD "") with
    | true => simpa using h
    | false =>
      simp only [Bool.false_eq_true, if_false]
      by_cases hx : x = (e.id).getD ""
      · subst hx
        rw [hc] at h
        simp only [Bool.false_eq_true, if_false] at h
        have hz : s.dispatched.count ((e.id).getD "") = 0 := Nat.le_zero.mp h
        simp [List.count_append, hz, List.contains_cons]
      · have hne1 : (x == (e.id).getD "") = false := by
          rw [beq_eq_false_iff_ne]
          exact hx
        have hne2 : ((e.id).getD "" == x) = false := by
          rw [beq_eq_false_iff_ne]
          exact fun hcon => hx hcon.symm
        simp only [List.count_append, List.contains_cons, hne1, hne2,
          Bool.false_or, List.count_cons, List.count_nil, Nat.zero_add,
          Bool.false_eq_true, if_false, Nat.add_zero]
        exact h

/-- Delivering any event sequence to the portable-hub handler preserves
the dedup invariant. -/
theorem runEvents_count_le (events : List CommandEvent) (s : HandlerState)
    (x : String)
    (h : s.dispatched.count x
      ≤ (if s.processed_commands.contains x then 1 else 0)) :
    (events.foldl portableHandle s).dispatched.count x
      ≤ (if (events.foldl portableHandle s).processed_commands.contains x
          then 1 else 0) := by
  induction events generalizing s with
  | nil => exact h
  | cons e es ih =>
    exact ih (portableHandle s e) (portableHandle_count_le s e x h)

/-- C1 amended: for the portable hub (portable_hub_silent.py, whose
handler records each command id in `processed_commands` before
dispatching and skips ids already present), every event sequence
delivered to one hub process dispatches at most one execution per
command id; hub.py's handler lacks the set and does not have this bound
(see the counterexample). -/
theorem c1_portable_at_most_once (events : List CommandEvent)
    (x : String) :
    execCount (runEvents portableHandle events) x ≤ 1 := by
  have h0 : (initialHandlerState).dispatched.count x
      ≤ (if (initialHandlerState).processed_commands.contains x then 1
          else 0) := by
    simp [initialHandlerState]
  have hinv := runEvents_count_le events initialHandlerState x h0
  unfold execCount runEvents
  refine le_trans hinv ?_
  split <;> omega

/-- Closed form of the `discover_scripts` loop: the scripts list is the
names of the discovered directories, `failed_deps` the discovered names
whose install failed, and the readiness flags record the install
outcome per discovered name. -/
theorem discover_foldl_eq (entries : List DirEntry) (f : String → Bool)
    (acc : DiscoveryResult) :
    entries.foldl (discoverStep f) acc =
      { scripts := acc.scripts ++ (entries.filter discovered).map DirEntry.name
      , failed_deps := acc.failed_deps
          ++ ((entries.filter discovered).filter
                (fun d => !f d.name)).map DirEntry.name
      , ready := acc.ready
          ++ (entries.filter discovered).map (fun d => (d.name, f d.name)) } := by
  induction entries generalizing acc with
  | nil => simp
  | cons d ds ih =>
    simp only [List.foldl_cons]
    rw [ih]
    cases hd : discovered d with
    | false =>
      simp [discoverStep, hd, List.filter_cons]
    | true =>
      cases hf : f d.name with
      | false =>
        simp [discoverStep, hd, hf, List.filter_cons, List.append_assoc]
      | true =>
        simp [discoverStep, hd, hf, List.filter_cons, List.append_assoc]

/-- C8: for every immediate subdirectory `D` of the scripts root (with
the listing's names distinct, as `os.listdir` guarantees), `D.name` is
in the list returned by `discover_scripts` iff `D` contains an entry
file `D.py` or `D.ps1`; the returned list does not depend on the
dependency-install outcomes (a failed install never removes a script),
and a discovered script's install outcome is recorded only in its
readiness flag while the script stays listed. -/
theorem c8_discovery_entry_iff (entries : List DirEntry)
    (f g : String → Bool) (d : DirEntry) (hmem : d ∈ entries)
    (hdir : d.isDir = true)
    (hnodup : (entries.map DirEntry.name).Nodup) :
    (d.name ∈ (discover_scripts entries f).scripts
        ↔ hasEntryFile d = true)
      ∧ (discover_scripts entries f).scripts
          = (discover_scripts entries g).scripts
      ∧ (hasEntryFile d = true →
          (d.name, f d.name) ∈ (discover_scripts entries f).ready
            ∧ d.name ∈ (discover_scripts entries f).scripts) := by
  have hchar := discover_foldl_eq entries f ⟨[], [], []⟩
  have hcharg := discover_foldl_eq entries g ⟨[], [], []⟩
  unfold discover_scripts
  rw [hchar, hcharg]
  simp only [List.nil_append]
  have hfwd : hasEntryFile d = true →
      d ∈ entries.filter discovered := by
    intro he
    rw [List.mem_filter]
    exact ⟨hmem, by simp [discovered, hdir, he]⟩
  refine ⟨⟨?_, ?_⟩, trivial, ?_⟩
  · intro hin
    rcases List.mem_map.mp hin with ⟨d2, hd2, hname⟩
    have hd2e : d2 ∈ entries := (List.mem_filter.mp hd2).1
    have hd2disc : discovered d2 = true := (List.mem_filter.mp hd2).2
    have : d2 = d :=
      List.inj_on_of_nodup_map hnodup hd2e hmem hname
    subst this
    have h2 := hd2disc
    simp only [discovered, Bool.and_eq_true] at h2
    exact h2.2
  · intro he
    exact List.mem_map_of_mem DirEntry.name (hfwd he)
  · intro he
    exact ⟨List.mem_map_of_mem (fun d => (d.name, f d.name)) (hfwd he),
      List.mem_map_of_mem DirEntry.name (hfwd he)⟩

/-- Witness for C8 on a concrete listing: a directory with its entry
file, a directory without one, and a loose file, with every dependency
install failing. -/
theorem c8_discovery_entry_iff_witness :
    (⟨"beep", true, ["beep.py"]⟩ : DirEntry)
        ∈ [ (⟨"beep", true, ["beep.py"]⟩ : DirEntry)
          , ⟨"empty", true, ["notes.txt"]⟩
          , ⟨"loose.py", false, []⟩ ]
      ∧ (⟨"beep", true, ["beep.py"]⟩ : DirEntry).isDir = true
      ∧ (([ (⟨"beep", true, ["beep.py"]⟩ : DirEntry)
          , ⟨"empty", true, ["notes.txt"]⟩
          , ⟨"loose.py", false, []⟩ ].map DirEntry.name).Nodup)
      ∧ (((⟨"beep", true, ["beep.py"]⟩ : DirEntry).name
            ∈ (discover_scripts
                [ ⟨"beep", true, ["beep.py"]⟩
                , ⟨"empty", true, ["notes.txt"]⟩
                , ⟨"loose.py", false, []⟩ ] (fun _ => false)).scripts
          ↔ hasEntryFile ⟨"beep", true, ["beep.py"]⟩ = true)
        ∧ (discover_scripts
              [ ⟨"beep", true, ["beep.py"]⟩
              , ⟨"empty", true, ["notes.txt"]⟩
              , ⟨"loose.py", false, []⟩ ] (fun _ => false)).scripts
            = (discover_scripts
                [ ⟨"beep", true, ["beep.py"]⟩
                , ⟨"empty", true, ["notes.txt"]⟩
                , ⟨"loose.py", false, []⟩ ] (fun _ => true)).scripts
        ∧ (hasEntryFile ⟨"beep", true, ["beep.py"]⟩ = true →
            ((⟨"beep", true, ["beep.py"]⟩ : DirEntry).name,
                (fun _ => false : String → Bool)
                  (⟨"beep", true, ["beep.py"]⟩ : DirEntry).name)
              ∈ (discover_scripts
                  [ ⟨"beep", true, ["beep.py"]⟩
                  , ⟨"empty", true, ["notes.txt"]⟩
                  , ⟨"loose.py", false, []⟩ ] (fun _ => false)).ready
            ∧ (⟨"beep", true, ["beep.py"]⟩ : DirEntry).name
                ∈ (discover_scripts
                    [ ⟨"beep", true, ["beep.py"]⟩
                    , ⟨"empty", true, ["notes.txt"]⟩
                    , ⟨"loose.py", false, []⟩ ] (fun _ => false)).scripts)) :=
  ⟨by decide, rfl, by decide,
    c8_discovery_entry_iff
      [ ⟨"beep", true, ["beep.py"]⟩
      , ⟨"empty", true, ["notes.txt"]⟩
      , ⟨"loose.py", false, []⟩ ]
      (fun _ => false) (fun _ => true)
      ⟨"beep", true, ["beep.py"]⟩ (by decide) rfl (by decide)⟩

end SPHub
